import Mathlib

/-!
Shallow embedding of the log classification engine (`core.py`, `cache.py`,
and the batch aggregation of `app.py`).

Conventions of the embedding:
* Python `None` used as a log level is `Option.none`; the spec's UNKNOWN
  level is exactly this value (the code returns `None` for unrecognized
  input and the spec calls that outcome UNKNOWN).
* Fallible Python code is `Except PyExc`: an uncaught Python exception
  corresponds to an `Except.error`.
* Mutable objects are threaded explicitly: a cache object becomes a state
  value of type `σ` together with a record of operations `CacheOps σ`.
-/

namespace LogApi

/-- The Python exceptions that can be raised by the embedded code paths:
`IndexError` from `parts[2]`, `json.JSONDecodeError` from `json.loads`,
`AttributeError` from calling `.get` on a non-dict value. -/
inductive PyExc where
  | indexError
  | jsonError
  | attributeError
deriving DecidableEq

/-- The recognized level set `{"INFO", "WARNING", "ERROR"}` used by both
parsers in `core.py`. -/
def LEVELS : List String := ["INFO", "WARNING", "ERROR"]

/-- Helper for `pySplit`: scans the character list, accumulating the current
token (reversed) and emitting it at each whitespace run boundary. -/
def wsTokensAux : List Char → List Char → List String
  | [], acc => if acc.isEmpty then [] else [String.mk acc.reverse]
  | c :: cs, acc =>
    if c.isWhitespace then
      if acc.isEmpty then wsTokensAux cs [] else String.mk acc.reverse :: wsTokensAux cs []
    else wsTokensAux cs (c :: acc)

/-- Python `line.strip().split()`: split on runs of whitespace, discarding
empty tokens (so leading/trailing whitespace contributes nothing and the
`strip()` is redundant). -/
def pySplit (s : String) : List String := wsTokensAux s.data []

/-- `PlainTextParser.parse_level` from `core.py`:
`parts = line.strip().split(); level = parts[2]` — the indexing raises
`IndexError` when there are fewer than 3 tokens; otherwise the token is
returned when it is in `LEVELS`, and the function falls through to an
implicit `return None` (UNKNOWN) when it is not. -/
def PlainTextParser.parse_level (line : String) : Except PyExc (Option String) :=
  let parts := pySplit line
  match parts.get? 2 with
  | none => Except.error PyExc.indexError
  | some level => if level ∈ LEVELS then Except.ok (some level) else Except.ok none

/-- A Python value as produced by `json.loads`. -/
inductive PyVal where
  | pyNone
  | pyBool (b : Bool)
  | pyInt (n : Int)
  | pyStr (s : String)
  | pyList (xs : List PyVal)
  | pyDict (fields : List (String × PyVal))

/-- Python `obj.get("k")`: defined (with default `None`) only on dicts;
on any other value the attribute access raises `AttributeError`. -/
def pyGet : PyVal → String → Except PyExc PyVal
  | PyVal.pyDict fields, k =>
    match fields.lookup k with
    | some v => Except.ok v
    | none => Except.ok PyVal.pyNone
  | _, _ => Except.error PyExc.attributeError

/-- `JSONTextParser.parse_level` from `core.py`. The stdlib call
`json.loads(line)` is external to this repository and is abstracted as its
outcome `loaded` (an error for a line that is not well-formed JSON). The
method body then runs `obj.get("level")` and the membership test
`level in {"INFO","WARNING","ERROR"}`; a non-string value (including
Python `None`) is never equal to a member of that string set, so those
cases fall through to the implicit `return None` (UNKNOWN). -/
def JSONTextParser.parse_level (loaded : Except PyExc PyVal) : Except PyExc (Option String) :=
  match loaded with
  | Except.error e => Except.error e
  | Except.ok obj =>
    match pyGet obj "level" with
    | Except.error e => Except.error e
    | Except.ok (PyVal.pyStr s) =>
        if s ∈ LEVELS then Except.ok (some s) else Except.ok none
    | Except.ok _ => Except.ok none

/-- `hashlib.sha256(line.encode("utf-8")).hexdigest()` is Python stdlib,
external to this repository; it is modelled as an injective textual
fingerprint of the line's code points (idealizing the hash's collision-free
role: nothing in the spec depends on the digest's value, only on its
determinism over the raw bytes of the line). -/
def sha256hex (s : String) : String :=
  String.intercalate "-" (s.data.map (fun c => toString c.toNat))

/-- `line_cache_key` from `cache.py`: the fingerprint digest under the
`loglevel:` namespace tag. -/
def line_cache_key (line : String) : String := "loglevel:" ++ sha256hex line

/-- The `BaseCache` interface from `cache.py`, as explicit state passing:
a cache object is a state of type `σ` plus these three operations. `set`
takes an `Option String` value because `LogAnalyser.process_line` passes it
`level`, which may be Python `None`. -/
structure CacheOps (σ : Type) where
  get : σ → String → Option String
  set : σ → String → Option String → Nat → σ
  allow : σ → String → Nat → Nat → Bool × σ

/-- `NoopCache` from `cache.py`: stateless, so its state type is `Unit`;
`get` always absent, `set` a discard, `allow` always `true`. -/
def noopCacheOps : CacheOps Unit where
  get := fun _ _ => none
  set := fun s _ _ _ => s
  allow := fun s _ _ _ => (true, s)

/-- State of an in-memory key/value store holding Python values: newest
binding first. -/
def MemState : Type := List (String × Option String)

/-- Lookup in the in-memory store. A key bound to Python `None` reads back
as `None`, which the caller cannot distinguish from an absent key — exactly
the behaviour of a Python mapping-backed `get` returning the stored value. -/
def memGet (s : MemState) (k : String) : Option String :=
  match s.lookup k with
  | some v => v
  | none => none

/-- A reachable memoization store faithful to the §4.1 CacheStore contract
(`get` returns the value most recently `set` for the key, absent
otherwise); used to model the non-no-op cache of the spec's repeat-line
property. The ttl is accepted and ignored (the property concerns rapid
back-to-back calls well inside any ttl). -/
def memCacheOps : CacheOps MemState where
  get := memGet
  set := fun s k v _ => (k, v) :: s
  allow := fun s _ _ _ => (true, s)

/-- Result of one `LogAnalyser.process_line` call, instrumented with which
collaborators the call invoked. `level` is the returned level
(`none` = UNKNOWN); `cacheState` is the cache object's state after the call
(`none` when the analyser was built with `cache=None`). -/
structure PLTrace (σ : Type) where
  level : Option String
  cacheState : Option σ
  parserInvoked : Bool
  getInvoked : Bool
  setInvoked : Bool
deriving DecidableEq

/-- `LogAnalyser.process_line` from `core.py`, over the fields the method
body touches (`self.cache`, `self.parser`, `self.cache_ttl`). When
`self.cache is None` the key stays `None`, so no `get` and no `set` happen
and the parser's result is returned directly. Otherwise: compute the
fingerprint key, `get`; a non-`None` cached value is returned immediately
(parser not invoked); on a miss the parser runs (an exception it raises
propagates), the level is written back with `set(key, level, ttl)`, and the
level is returned. -/
def LogAnalyser.process_line {σ : Type} (C : CacheOps σ)
    (parser : String → Except PyExc (Option String)) (ttl : Nat)
    (cache : Option σ) (line : String) : Except PyExc (PLTrace σ) :=
  match cache with
  | none =>
    match parser line with
    | Except.error e => Except.error e
    | Except.ok level => Except.ok ⟨level, none, true, false, false⟩
  | some s =>
    let key := line_cache_key line
    match C.get s key with
    | some cached => Except.ok ⟨some cached, some s, false, true, false⟩
    | none =>
      match parser line with
      | Except.error e => Except.error e
      | Except.ok level =>
          Except.ok ⟨level, some (C.set s key level ttl), true, true, true⟩

/-- The mutable state of a `LogAnalyser` instance: its cache object (or
`None`) and its running tally `self.counts` (a `defaultdict(int)`, as an
association list defaulting to 0). -/
structure AnalyserState (σ : Type) where
  cache : Option σ
  counts : List (Option String × Nat)

/-- `self.counts[level] += 1` on a `defaultdict(int)`. -/
def bump : List (Option String × Nat) → Option String → List (Option String × Nat)
  | [], l => [(l, 1)]
  | (k, n) :: rest, l =>
    if k = l then (k, n + 1) :: rest else (k, n) :: bump rest l

/-- Reading `counts[level]` with the `defaultdict(int)` default of 0. -/
def lookupCount : List (Option String × Nat) → Option String → Nat
  | [], _ => 0
  | (k, n) :: rest, l => if k = l then n else lookupCount rest l

/-- `LogAnalyser.process_line` viewed on the full analyser state: the
method body reads `self.cache`, `self.parser`, `self.cache_ttl` and never
touches `self.counts`, so the tally component passes through unchanged. -/
def LogAnalyser.process_line_on_state {σ : Type} (C : CacheOps σ)
    (parser : String → Except PyExc (Option String)) (ttl : Nat)
    (st : AnalyserState σ) (line : String) :
    Except PyExc (Option String × AnalyserState σ) :=
  (LogAnalyser.process_line C parser ttl st.cache line).map
    (fun t => (t.level, ⟨t.cacheState, st.counts⟩))

/-- `LogAnalyser.process_lines` from `core.py`: for each line, call
`self.process_line(line)` and then `self.counts[level] += 1`; finally
return `dict(self.counts)`. An exception raised by a line's parse
propagates and aborts the batch. -/
def LogAnalyser.process_lines {σ : Type} (C : CacheOps σ)
    (parser : String → Except PyExc (Option String)) (ttl : Nat) :
    AnalyserState σ → List String →
    Except PyExc (List (Option String × Nat) × AnalyserState σ)
  | st, [] => Except.ok (st.counts, st)
  | st, line :: rest =>
    match LogAnalyser.process_line C parser ttl st.cache line with
    | Except.error e => Except.error e
    | Except.ok t =>
        LogAnalyser.process_lines C parser ttl ⟨t.cacheState, bump st.counts t.level⟩ rest

/-- The per-batch aggregation loop of `app.py` (`/batch` and
`/batch_threads`): `counts[level] = counts.get(level, 0) + 1` over the list
of returned levels. -/
def aggregate (levels : List (Option String)) : List (Option String × Nat) :=
  levels.foldl bump []

/-- Sum of all tally values. -/
def sumTally (c : List (Option String × Nat)) : Nat := (c.map Prod.snd).sum

/-- One key's entry in the modelled external counter store: its integer
value and, when a ttl was armed, the absolute time at which it expires. -/
structure RedisEntry where
  count : Nat
  expireAt : Option Nat
deriving DecidableEq

/-- Modelled external atomic-increment/expire-capable store (the redis
client is external to this repository): the raw key table (newest binding
first) plus the current time. -/
structure RedisState where
  data : List (String × RedisEntry)
  now : Nat
deriving DecidableEq

/-- A key's live entry: a binding whose expiry time has passed is gone. -/
def redisLive (s : RedisState) (k : String) : Option RedisEntry :=
  match s.data.lookup k with
  | some e =>
    match e.expireAt with
    | some t => if t ≤ s.now then none else some e
    | none => some e
  | none => none

/-- `INCR`: an absent or expired key is created at 1 with no ttl; a live
key's count is incremented, keeping its ttl. Returns the post-increment
value. -/
def redisIncr (s : RedisState) (k : String) : Nat × RedisState :=
  match redisLive s k with
  | some e => (e.count + 1, ⟨(k, ⟨e.count + 1, e.expireAt⟩) :: s.data, s.now⟩)
  | none => (1, ⟨(k, ⟨1, none⟩) :: s.data, s.now⟩)

/-- `EXPIRE key w`: arm an expiry of `w` from now on the key's current
binding. (In `allow` it is only called immediately after `INCR` created or
updated the binding at the head of the table.) -/
def redisExpire (s : RedisState) (k : String) (w : Nat) : RedisState :=
  match s.data.lookup k with
  | some e => ⟨(k, ⟨e.count, some (s.now + w)⟩) :: s.data, s.now⟩
  | none => s

/-- `RedisCache.allow` from `cache.py`:
`current = incr(key); if current == 1: expire(key, window); return current <= limit`. -/
def RedisCache.allow (s : RedisState) (key : String) (limit window : Nat) :
    Bool × RedisState :=
  let r := redisIncr s key
  let s2 := if r.1 = 1 then redisExpire r.2 key window else r.2
  (decide (r.1 ≤ limit), s2)

/-- n successive `allow` calls with the same key, limit and window,
collecting the returned booleans and threading the store state. -/
def allowSeq (key : String) (limit window : Nat) : Nat → RedisState → List Bool × RedisState
  | 0, s => ([], s)
  | n + 1, s =>
    let r := RedisCache.allow s key limit window
    let rest := allowSeq key limit window n r.2
    (r.1 :: rest.1, rest.2)

/-- The count a caller of `allow` observes for a key before incrementing:
the live entry's count, or 0 for an absent/expired key. -/
def priorCount (s : RedisState) (k : String) : Nat :=
  match redisLive s k with
  | some e => e.count
  | none => 0

/-- The expiry currently armed on a key's live entry, if any. -/
def liveExpire (s : RedisState) (k : String) : Option Nat :=
  match redisLive s k with
  | some e => e.expireAt
  | none => none

/-- Auxiliary: incrementing a tally at a level raises that level's count by
exactly one. -/
theorem lookupCount_bump (c : List (Option String × Nat)) (l : Option String) :
    lookupCount (bump c l) l = lookupCount c l + 1 := by
  induction c with
  | nil => simp [bump, lookupCount]
  | cons p rest ih =>
    obtain ⟨k, n⟩ := p
    by_cases hk : k = l
    · simp [bump, lookupCount, hk]
    · simp [bump, lookupCount, hk, ih]

/-- C1: the claim says a plain-text line with fewer than 3 tokens yields
UNKNOWN and never an uncaught fault; the code instead evaluates `parts[2]`
unguarded, so such a line raises `IndexError` which propagates to the
caller. Evaluated here at the spec's own example line `"garbage"` and at a
two-token line. -/
theorem plain_short_line_raises :
    PlainTextParser.parse_level "garbage" = Except.error PyExc.indexError
    ∧ PlainTextParser.parse_level "2024-01-01 svcA" = Except.error PyExc.indexError :=
  ⟨rfl, rfl⟩

/-- C2: the claim says any non-well-formed structured line yields UNKNOWN
and never raises; the code calls `json.loads(line)` unguarded, so a
malformed line's `JSONDecodeError` propagates (first conjunct), and a
well-formed but non-dict record raises `AttributeError` at `obj.get`
(second conjunct). The remaining conjuncts confirm the true parts of the
claim: a record missing `"level"`, or holding an unrecognized value there,
yields UNKNOWN without raising. -/
theorem json_malformed_raises :
    JSONTextParser.parse_level (Except.error PyExc.jsonError) = Except.error PyExc.jsonError
    ∧ JSONTextParser.parse_level (Except.ok (PyVal.pyList [PyVal.pyInt 1]))
        = Except.error PyExc.attributeError
    ∧ JSONTextParser.parse_level (Except.ok (PyVal.pyDict [("msg", PyVal.pyStr "hi")]))
        = Except.ok none
    ∧ JSONTextParser.parse_level (Except.ok (PyVal.pyDict [("level", PyVal.pyStr "TRACE")]))
        = Except.ok none :=
  ⟨rfl, rfl, rfl, rfl⟩

/-- C3: `process_line` is cache-aside. When the cache `get` on the line's
fingerprint returns a value, that value is returned with the parser not
invoked and the cache state untouched; on a miss, the parser is invoked
and (when it returns a level rather than raising) the level is written
back via `set` with the configured ttl and returned. -/
theorem process_line_cache_aside {σ : Type} (C : CacheOps σ)
    (parser : String → Except PyExc (Option String)) (ttl : Nat) (s : σ) (line : String) :
    (∀ v : String, C.get s (line_cache_key line) = some v →
      LogAnalyser.process_line C parser ttl (some s) line
        = Except.ok ⟨some v, some s, false, true, false⟩)
    ∧ (C.get s (line_cache_key line) = none →
      ∀ lvl : Option String, parser line = Except.ok lvl →
        LogAnalyser.process_line C parser ttl (some s) line
          = Except.ok ⟨lvl, some (C.set s (line_cache_key line) lvl ttl), true, true, true⟩) := by
  constructor
  · intro v h
    simp [LogAnalyser.process_line, h]
  · intro h lvl hp
    simp [LogAnalyser.process_line, h, hp]

/-- C3 witness: a concrete cache hit (entry present for the line's
fingerprint, returned without parsing) and a concrete miss (parse,
write-back with ttl 60, return). -/
theorem process_line_cache_aside_witness :
    LogAnalyser.process_line memCacheOps PlainTextParser.parse_level 60
        (some [(line_cache_key "x", some "INFO")]) "x"
      = Except.ok ⟨some "INFO", some [(line_cache_key "x", some "INFO")], false, true, false⟩
    ∧ LogAnalyser.process_line memCacheOps PlainTextParser.parse_level 60 (some []) "a b ERROR x"
      = Except.ok ⟨some "ERROR",
          some (memCacheOps.set [] (line_cache_key "a b ERROR x") (some "ERROR") 60),
          true, true, true⟩ :=
  ⟨(process_line_cache_aside memCacheOps PlainTextParser.parse_level 60
      [(line_cache_key "x", some "INFO")] "x").1 "INFO" rfl,
   (process_line_cache_aside memCacheOps PlainTextParser.parse_level 60 [] "a b ERROR x").2
      rfl (some "ERROR") rfl⟩

/-- C6 counterexample: the claim says every `process_line` call increments
the analyser's tally for the level it returns before returning; here a
concrete call returns level INFO while leaving the tally empty (INFO count
still 0 where the claim requires 1). -/
theorem process_line_no_tally_cex :
    LogAnalyser.process_line_on_state noopCacheOps PlainTextParser.parse_level 60
        ⟨some (), []⟩ "a b INFO"
      = Except.ok (some "INFO", ⟨some (), []⟩)
    ∧ lookupCount [] (some "INFO") = 0 :=
  ⟨rfl, rfl⟩

/-- C6 amended: `process_line` returns the level leaving the running tally
unchanged; the tally update happens in `process_lines`, which after each
successful `process_line` increments the returned level's count by exactly
one. -/
theorem tally_updated_in_process_lines {σ : Type} (C : CacheOps σ)
    (parser : String → Except PyExc (Option String)) (ttl : Nat)
    (st : AnalyserState σ) (line : String) (t : PLTrace σ)
    (h : LogAnalyser.process_line C parser ttl st.cache line = Except.ok t) :
    LogAnalyser.process_line_on_state C parser ttl st line
        = Except.ok (t.level, ⟨t.cacheState, st.counts⟩)
    ∧ LogAnalyser.process_lines C parser ttl st [line]
        = Except.ok (bump st.counts t.level, ⟨t.cacheState, bump st.counts t.level⟩)
    ∧ lookupCount (bump st.counts t.level) t.level = lookupCount st.counts t.level + 1 := by
  refine ⟨?_, ?_, lookupCount_bump st.counts t.level⟩
  · simp [LogAnalyser.process_line_on_state, h, Except.map]
  · simp [LogAnalyser.process_lines, h]

/-- C6 amended witness: a concrete one-line batch whose tally gains exactly
the returned level. -/
theorem tally_updated_in_process_lines_witness :
    LogAnalyser.process_lines noopCacheOps PlainTextParser.parse_level 60 ⟨none, []⟩ ["a b INFO"]
      = Except.ok ([(some "INFO", 1)], ⟨none, [(some "INFO", 1)]⟩) :=
  (tally_updated_in_process_lines noopCacheOps PlainTextParser.parse_level 60 ⟨none, []⟩
      "a b INFO" ⟨some "INFO", none, true, false, false⟩ rfl).2.1

/-- C9: the no-op cache is stateless and trivial — `get` always absent,
`set` a discard leaving the (single-point) state unchanged, `allow` always
true — so no amount of prior calls can change any observable. -/
theorem noop_cache_behaviour (key : String) (value : Option String)
    (ttl limit window : Nat) (s : Unit) :
    noopCacheOps.get s key = none
    ∧ noopCacheOps.set s key value ttl = s
    ∧ noopCacheOps.allow s key limit window = (true, s) :=
  ⟨rfl, rfl, rfl⟩

/-- C10: with `cache=None`, `process_line` invokes the parser and returns
its outcome directly (a raised exception propagates unchanged), performing
no cache `get` and no cache `set`. -/
theorem cacheless_process_line {σ : Type} (C : CacheOps σ)
    (parser : String → Except PyExc (Option String)) (ttl : Nat) (line : String) :
    LogAnalyser.process_line C parser ttl (none : Option σ) line
      = (parser line).map (fun lvl => ⟨lvl, none, true, false, false⟩) := by
  unfold LogAnalyser.process_line
  cases hp : parser line <;> simp [hp, Except.map]

/-- Auxiliary: the in-memory store's `get` on a key whose newest binding is
`v` returns `v` (in particular a stored Python `None` reads back as `None`,
indistinguishable from absent). -/
theorem memGet_cons_self (k : String) (v : Option String) (s : MemState) :
    memGet ((k, v) :: s) k = v := by
  simp [memGet, List.lookup]

/-- Auxiliary: `memCacheOps.get` unfolds to `memGet`. -/
theorem memCacheOps_get (s : MemState) (k : String) : memCacheOps.get s k = memGet s k := rfl

/-- Auxiliary: `memCacheOps.set` prepends the new binding. -/
theorem memCacheOps_set (s : MemState) (k : String) (v : Option String) (ttl : Nat) :
    memCacheOps.set s k v ttl = (k, v) :: s := rfl

/-- C4 counterexample: processing the byte-identical line `"a b DEBUG"`
twice through the same live cache. The first call parses it to UNKNOWN
(`none`) and writes that back; but the second call is not a cache hit: the
stored `None` reads back as absent, so the parser is invoked again
(`parserInvoked = true`, where the claim requires `false`). -/
theorem unknown_not_cached_cex :
    LogAnalyser.process_line memCacheOps PlainTextParser.parse_level 60 (some []) "a b DEBUG"
      = Except.ok ⟨none, some [(line_cache_key "a b DEBUG", none)], true, true, true⟩
    ∧ (LogAnalyser.process_line memCacheOps PlainTextParser.parse_level 60
        (some [(line_cache_key "a b DEBUG", none)]) "a b DEBUG").map PLTrace.parserInvoked
      = Except.ok true :=
  ⟨rfl, rfl⟩

/-- C4 amended: re-processing a byte-identical line through the same live
cache returns the same level; when the first call's level is a recognized
one (`some v`) the second call is a cache hit with the parser not invoked
and the cache state unchanged; when the first call's level is UNKNOWN
(`none`) the written-back `None` reads back as absent, so the second call
re-invokes the parser — still returning the same UNKNOWN level. -/
theorem repeat_line_cached (parser : String → Except PyExc (Option String)) (ttl : Nat)
    (s : MemState) (line : String) (t : PLTrace MemState)
    (h : LogAnalyser.process_line memCacheOps parser ttl (some s) line = Except.ok t) :
    (∀ v : String, t.level = some v →
      LogAnalyser.process_line memCacheOps parser ttl t.cacheState line
        = Except.ok ⟨some v, t.cacheState, false, true, false⟩)
    ∧ (t.level = none →
      LogAnalyser.process_line memCacheOps parser ttl t.cacheState line
        = Except.ok ⟨none, t.cacheState.map (fun s2 => (line_cache_key line, none) :: s2),
            true, true, true⟩) := by
  obtain ⟨tlevel, tcache, tp, tg, ts⟩ := t
  cases hg : memCacheOps.get s (line_cache_key line) with
  | some v0 =>
    simp only [LogAnalyser.process_line, hg] at h
    simp only [Except.ok.injEq, PLTrace.mk.injEq] at h
    obtain ⟨rfl, rfl, rfl, rfl, rfl⟩ := h
    constructor
    · intro v hv
      injection hv with hv
      subst hv
      simp [LogAnalyser.process_line, hg]
    · intro hnone
      cases hnone
  | none =>
    cases hp : parser line with
    | error e => simp [LogAnalyser.process_line, hg, hp] at h
    | ok lvl =>
      simp only [LogAnalyser.process_line, hg, hp] at h
      simp only [Except.ok.injEq, PLTrace.mk.injEq] at h
      obtain ⟨rfl, rfl, rfl, rfl, rfl⟩ := h
      constructor
      · intro v hv
        subst hv
        simp [LogAnalyser.process_line, memCacheOps_get, memCacheOps_set, memGet_cons_self]
      · intro hnone
        subst hnone
        simp [LogAnalyser.process_line, memCacheOps_get, memCacheOps_set,
          memGet_cons_self, hp]

/-- C4 amended witness: a concrete recognized-level line is parsed once and
then served from the cache with the parser not invoked. -/
theorem repeat_line_cached_witness :
    LogAnalyser.process_line memCacheOps PlainTextParser.parse_level 60
        (some [(line_cache_key "a b ERROR", some "ERROR")]) "a b ERROR"
      = Except.ok ⟨some "ERROR", some [(line_cache_key "a b ERROR", some "ERROR")],
          false, true, false⟩ :=
  (repeat_line_cached PlainTextParser.parse_level 60 [] "a b ERROR"
      ⟨some "ERROR", some [(line_cache_key "a b ERROR", some "ERROR")], true, true, true⟩
      rfl).1 "ERROR" rfl

/-- C7: for a plain-text line with at least 3 whitespace-separated tokens,
`parse_level` returns the third token exactly when it is one of
{INFO, WARNING, ERROR}, and UNKNOWN otherwise — in both cases without
raising. -/
theorem plain_parse_third_token (line : String) (h : 3 ≤ (pySplit line).length) :
    PlainTextParser.parse_level line
      = Except.ok (if (pySplit line).getD 2 "" ∈ LEVELS
          then some ((pySplit line).getD 2 "") else none) := by
  have h2 : 2 < (pySplit line).length := by omega
  have hx : (pySplit line).get? 2 = some ((pySplit line).getD 2 "") := by
    rw [List.getD_eq_getElem?_getD, List.get?_eq_getElem?, List.getElem?_eq_getElem h2]
    rfl
  simp only [PlainTextParser.parse_level, hx]
  split <;> rename_i hm <;> simp [hm]

/-- C7 witness: the spec's example line has 4 tokens and its third token
`"ERROR"` is recognized and returned. -/
theorem plain_parse_third_token_witness :
    3 ≤ (pySplit "2024-01-01 svcA ERROR fail").length
    ∧ PlainTextParser.parse_level "2024-01-01 svcA ERROR fail" = Except.ok (some "ERROR") := by
  refine ⟨by decide, ?_⟩
  have h := plain_parse_third_token "2024-01-01 svcA ERROR fail" (by decide)
  simpa using h

/-- Auxiliary: a tally bump adds exactly one to the sum of tally values. -/
theorem sumTally_bump (c : List (Option String × Nat)) (l : Option String) :
    sumTally (bump c l) = sumTally c + 1 := by
  induction c with
  | nil => simp [bump, sumTally]
  | cons p rest ih =>
    obtain ⟨k, n⟩ := p
    by_cases hk : k = l
    · simp [bump, sumTally, hk]
      omega
    · simp [bump, sumTally, hk] at ih ⊢
      omega

/-- Auxiliary: folding the per-level bump over a list of levels adds the
list's length to the sum of tally values. -/
theorem sumTally_foldl_bump (levels : List (Option String)) :
    ∀ c : List (Option String × Nat),
      sumTally (levels.foldl bump c) = sumTally c + levels.length := by
  induction levels with
  | nil => intro c; simp
  | cons l rest ih =>
    intro c
    rw [List.foldl_cons, ih, sumTally_bump, List.length_cons]
    omega

/-- Auxiliary: a successful `process_lines` adds the batch size to the sum
of tally values. -/
theorem process_lines_sum {σ : Type} (C : CacheOps σ)
    (parser : String → Except PyExc (Option String)) (ttl : Nat) :
    ∀ (lines : List String) (st : AnalyserState σ)
      (res : List (Option String × Nat) × AnalyserState σ),
      LogAnalyser.process_lines C parser ttl st lines = Except.ok res →
      sumTally res.1 = sumTally st.counts + lines.length := by
  intro lines
  induction lines with
  | nil =>
    intro st res h
    obtain ⟨counts2, st2⟩ := res
    simp [LogAnalyser.process_lines] at h
    obtain ⟨rfl, rfl⟩ := h
    simp
  | cons line rest ih =>
    intro st res h
    cases hp : LogAnalyser.process_line C parser ttl st.cache line with
    | error e => simp [LogAnalyser.process_lines, hp] at h
    | ok t =>
      simp only [LogAnalyser.process_lines, hp] at h
      have hs := ih ⟨t.cacheState, bump st.counts t.level⟩ res h
      simp only [List.length_cons]
      simp [sumTally_bump] at hs
      omega

/-- C8: the level→count tally produced for a batch of N lines sums to N:
first for the aggregation loop the `/batch` endpoints run over the N
returned levels, and second for `LogAnalyser.process_lines` run on a fresh
analyser (empty tally), whenever it completes without an exception. -/
theorem batch_tally_sum :
    (∀ levels : List (Option String), sumTally (aggregate levels) = levels.length)
    ∧ (∀ (σ : Type) (C : CacheOps σ) (parser : String → Except PyExc (Option String))
        (ttl : Nat) (cache : Option σ) (lines : List String)
        (res : List (Option String × Nat) × AnalyserState σ),
        LogAnalyser.process_lines C parser ttl ⟨cache, []⟩ lines = Except.ok res →
        sumTally res.1 = lines.length) := by
  constructor
  · intro levels
    have h := sumTally_foldl_bump levels []
    simpa [aggregate, sumTally] using h
  · intro σ C parser ttl cache lines res h
    have hs := process_lines_sum C parser ttl lines ⟨cache, []⟩ res h
    simpa [sumTally] using hs

/-- C8 witness: a concrete one-line batch whose produced tally sums to 1. -/
theorem batch_tally_sum_witness :
    sumTally [((some "INFO" : Option String), 1)] = 1 :=
  batch_tally_sum.2 Unit noopCacheOps PlainTextParser.parse_level 60 none ["a b INFO"]
    ([(some "INFO", 1)], ⟨none, [(some "INFO", 1)]⟩) rfl

/-- C5: `RedisCache.allow` increments the key's counter (an absent or
expired key counting as 0), arms an expiry of `window` from now exactly
when the post-increment count is 1 (otherwise the previously armed expiry
is kept), returns true iff the post-increment count is at most `limit`,
and does not advance time. The closed conjuncts run the spec's scenario:
on a fresh key with limit 5 and window 10, six rapid calls return five
`true` then `false`, and a seventh call after the window has elapsed
(time 11) returns `true` again. -/
theorem allow_fixed_window :
    (∀ (s : RedisState) (key : String) (limit window : Nat),
      (RedisCache.allow s key limit window).2.data.lookup key
          = some ⟨priorCount s key + 1,
              if priorCount s key = 0 then some (s.now + window) else liveExpire s key⟩
      ∧ (RedisCache.allow s key limit window).1 = decide (priorCount s key + 1 ≤ limit)
      ∧ (RedisCache.allow s key limit window).2.now = s.now)
    ∧ (allowSeq "k" 5 10 6 ⟨[], 0⟩).1 = [true, true, true, true, true, false]
    ∧ (RedisCache.allow ⟨(allowSeq "k" 5 10 6 ⟨[], 0⟩).2.data, 11⟩ "k" 5 10).1 = true := by
  refine ⟨?_, by decide, by decide⟩
  intro s key limit window
  cases hl : redisLive s key with
  | none =>
    simp [RedisCache.allow, redisIncr, redisExpire, priorCount, liveExpire, hl, List.lookup]
  | some e =>
    by_cases hc : e.count = 0
    · simp [RedisCache.allow, redisIncr, redisExpire, priorCount, liveExpire, hl, hc,
        List.lookup]
    · have hne : ¬ (e.count + 1 = 1) := by omega
      simp [RedisCache.allow, redisIncr, priorCount, liveExpire, hl, hne, List.lookup, hc]

end LogApi
